import Mathlib

/-!
Shallow embedding of the `sqlkit` package (database connection and
transaction manager): configuration and DSN construction
(`src/sqlkit/config.go`), the manager, follower router and connection
establisher (`src/sqlkit/errors.go`), and the transaction coordinator
(`src/sqlkit/transaction.go`), together with theorems checking the
natural-language specification against this embedding.

External effects (the database driver, `BeginTx`/`Commit`/`Rollback`,
`sql.Open`/`PingContext`, the clock) are supplied as explicit oracle
inputs; everything else is translated directly from the Go source.
-/

namespace Sqlkit

/-- A live `*sql.DB` connection handle, identified abstractly.
`Option Conn` models a possibly-nil Go pointer (`none` = nil). -/
abbrev Conn := Nat

/-- Go `error` values as produced by `errors.New` / `fmt.Errorf`.
`wrapOne t e` models `fmt.Errorf(t ++ "%w", e)`;
`wrapTwo t1 t2 a b` models `fmt.Errorf(t1 ++ "%w" ++ t2 ++ "%w", a, b)`. -/
inductive GoError where
  | errorString (s : String)
  | wrapOne (text : String) (err : GoError)
  | wrapTwo (text1 text2 : String) (err1 err2 : GoError)
  | wrapPre (err : GoError) (text : String)
deriving DecidableEq, Repr

/-- The rendered `Error()` message of a Go error.
`wrapPre e t` models `fmt.Errorf("%w" ++ t, e)`. -/
def GoError.message : GoError → String
  | .errorString s => s
  | .wrapOne t e => t ++ e.message
  | .wrapTwo t1 t2 a b => t1 ++ a.message ++ t2 ++ b.message
  | .wrapPre e t => e.message ++ t

/-- A `*sql.Tx` transaction handle (abstract identity). -/
structure Tx where
  id : Nat
deriving DecidableEq, Repr

/-- `sql.TxOptions`. -/
structure TxOptions where
  ReadOnly : Bool := false
  Isolation : Nat := 0
deriving DecidableEq, Repr

/-! ### Context (`context.Context`)

A Go context is modelled as an innermost-first association list of
key/value pairs; `context.WithValue` conses a pair, `ctx.Value` returns
the innermost binding for a key.  The only key the package uses is
`txKey{}`; other keys are carried opaquely. -/

/-- A context key: the package's `txKey{}` or any other key. -/
inductive CtxKey where
  | txKey
  | otherKey (n : Nat)
deriving DecidableEq, Repr

/-- A context value: a `*sql.Tx` (as stored by `InjectTx`) or any other value. -/
inductive CtxVal where
  | txVal (t : Tx)
  | otherVal (n : Nat)
deriving DecidableEq, Repr

/-- `context.Context`, innermost binding first. -/
abbrev Context := List (CtxKey × CtxVal)

/-- `ctx.Value(k)`: innermost binding for `k`, if any. -/
def ctxValue (ctx : Context) (k : CtxKey) : Option CtxVal :=
  (ctx.find? (fun p => p.1 == k)).map (·.2)

/-- `InjectTx` injects a transaction into the context
(`context.WithValue(ctx, txKey{}, tx)`). -/
def InjectTx (ctx : Context) (tx : Tx) : Context :=
  (CtxKey.txKey, CtxVal.txVal tx) :: ctx

/-- `ExtractTx` extracts a transaction from the context if present:
`tx, ok := ctx.Value(txKey{}).(*sql.Tx)`. -/
def ExtractTx (ctx : Context) : Option Tx × Bool :=
  match ctxValue ctx CtxKey.txKey with
  | some (CtxVal.txVal t) => (some t, true)
  | _ => (none, false)

/-! ### Transaction coordinator (`src/sqlkit/transaction.go`)

The body `fn` is modelled as a function from the derived context to an
observable behaviour (return an error / return nil / panic), and the
driver's `BeginTx` / `Rollback` / `Commit` outcomes as an oracle.
The `defer`red commit-or-rollback switch is translated branch by branch. -/

/-- A Go panic value: an arbitrary value (`panic(v)`) or an `error`
(`panic(fmt.Errorf(...))`). -/
inductive PanicVal where
  | raw (s : String)
  | goErr (e : GoError)
deriving DecidableEq, Repr

/-- Observable behaviour of a transaction body `fn(txCtx)`. -/
inductive FnBehavior where
  | returns (e : Option GoError)
  | panics (v : PanicVal)
deriving DecidableEq, Repr

/-- Driver-side outcomes for one transaction attempt. -/
structure TxOracle where
  /-- Result of `db.BeginTx(ctx, opts)`. -/
  beginResult : Except GoError Tx
  /-- Error returned by `tx.Rollback()` (`none` = nil). -/
  rollbackErr : Option GoError
  /-- Error returned by `tx.Commit()` (`none` = nil). -/
  commitErr : Option GoError
deriving Repr

/-- How an invocation terminates: a normal return (with the returned
error, `none` = nil) or a propagating panic carrying a value. -/
inductive ExecOutcome where
  | normal (e : Option GoError)
  | panicked (v : PanicVal)
deriving DecidableEq, Repr

/-- Trace of one `WithTransaction*` invocation: whether `BeginTx`,
`Commit` and `Rollback` were attempted, and how the call terminated. -/
structure TxRun where
  began : Bool
  committed : Bool
  rolledBack : Bool
  outcome : ExecOutcome
deriving DecidableEq, Repr

/-- `(*DB).WithTransactionOptions` (`transaction.go:41-86`).
Branches mirror the source: nested-transaction check, `BeginTx`,
`InjectTx`, run `fn`, then the deferred switch
(`panicked` / `fnErr != nil` / commit).

The function's `error` result is *unnamed*, and `return fnErr` copies
`fnErr` into the result slot before the deferred closure runs, so the
closure's assignments `fnErr = fmt.Errorf(...)` on the rollback-failure
and commit-failure paths are dead stores: the value actually returned
is the body's error (or nil) as it stood at the `return` statement.
The `panic(...)` in the panicked case does take effect (it replaces the
in-flight panic value, independent of the result slot). -/
def withTransactionOptionsRun (ctx : Context) (_opts : Option TxOptions)
    (o : TxOracle) (fn : Context → FnBehavior) : TxRun :=
  -- if _, ok := ExtractTx(ctx); ok { return nested transaction error }
  if (ExtractTx ctx).2 then
    ⟨false, false, false,
      .normal (some (.errorString "sqlkit: nested transaction detected"))⟩
  else
    -- tx, err := db.Leader().BeginTx(ctx, opts)
    match o.beginResult with
    | .error e =>
        ⟨true, false, false,
          .normal (some (.wrapOne "sqlkit: failed to begin transaction: " e))⟩
    | .ok tx =>
        let txCtx := InjectTx ctx tx
        match fn txCtx with
        | .panics v =>
            -- case panicked: rollback; on rollback failure re-panic with a
            -- new error wrapping only the rollback error
            match o.rollbackErr with
            | some rbErr =>
                ⟨true, false, true,
                  .panicked (.goErr (.wrapOne
                    "sqlkit: transaction panic and rollback failed: " rbErr))⟩
            | none => ⟨true, false, true, .panicked v⟩
        | .returns (some fnErr) =>
            -- case fnErr != nil: rollback is attempted; on rollback failure
            -- the combined error is assigned to the local fnErr only — the
            -- result slot already holds the body error, which is returned
            ⟨true, false, true, .normal (some fnErr)⟩
        | .returns none =>
            -- default: commit is attempted; a commit failure is assigned to
            -- the local fnErr only — the result slot already holds nil,
            -- which is returned
            ⟨true, true, false, .normal none⟩

/-- `(*DB).WithTransaction` (`transaction.go:35-37`): delegates to
`WithTransactionOptions` with nil options. -/
def withTransactionRun (ctx : Context) (o : TxOracle)
    (fn : Context → FnBehavior) : TxRun :=
  withTransactionOptionsRun ctx none o fn

/-! ### Health state and follower router (`src/sqlkit/errors.go`)

The mutable part of a `DB` that the router and health readers touch:
the leader handle, the follower handle slice, the round-robin cursor
`followerIdx`, and the health table.  `followerHealthMap` models the Go
`map[int]ConnectionHealth` as a partial function. -/

/-- `ConnectionHealth`: health status of a single connection.  Times are
abstract naturals. -/
structure ConnectionHealth where
  Healthy : Bool
  LastCheck : Nat := 0
  Error : String := ""
  ResponseTime : Nat := 0
deriving DecidableEq, Repr

/-- `Health`: overall health status (leader + followers). -/
structure Health where
  Leader : ConnectionHealth
  Followers : List ConnectionHealth
deriving DecidableEq, Repr

/-- The fields of `DB` read or written by `Leader`/`Follower`/`GetHealth`. -/
structure DBState where
  leader : Option Conn
  followers : List (Option Conn)
  followerIdx : Nat
  followerHealthMap : Nat → Option ConnectionHealth
  leaderHealth : ConnectionHealth := ⟨true, 0, "", 0⟩

/-- `(*DB).Leader` (`errors.go`): returns the leader handle. -/
def Leader (db : DBState) : Option Conn :=
  db.leader

/-- The condition under which the `Follower` loop returns slot `idx`:
`healthy := ok && followerHealth.Healthy` together with
`db.followers[idx] != nil`. -/
def selectable (db : DBState) (idx : Nat) : Bool :=
  (match db.followerHealthMap idx with
   | some h => h.Healthy
   | none => false)
  && (db.followers.getD idx none).isSome

/-- The `for i := 0; i < attempts; i++` loop of `(*DB).Follower`:
`idx := (startIdx + i) % n`, advance the cursor to `(idx+1) % n`, and
return `db.followers[idx]` if it is healthy and non-nil.  Returns the
final cursor value and the selected handle (`none` if the loop ends
without returning). -/
def followerScan (db : DBState) (startIdx : Nat) :
    Nat → Nat → Nat → Nat × Option Conn
  | _, 0, cur => (cur, none)
  | i, fuel + 1, _ =>
      let n := db.followers.length
      let idx := (startIdx + i) % n
      let cur2 := (idx + 1) % n
      if selectable db idx then (cur2, db.followers.getD idx none)
      else followerScan db startIdx (i + 1) fuel cur2

/-- `(*DB).Follower` (`errors.go:271-301`): round-robin selection of a
healthy follower, falling back to the leader.  Returns the state with
the updated cursor together with the chosen handle. -/
def Follower (db : DBState) : DBState × Option Conn :=
  if db.followers.length = 0 then (db, db.leader)
  else
    match followerScan db db.followerIdx 0 db.followers.length db.followerIdx with
    | (cur, some c) => ({ db with followerIdx := cur }, some c)
    | (cur, none) => ({ db with followerIdx := cur }, db.leader)

/-- `(*DB).GetHealth` (`errors.go:54-73`): leader health plus one entry
per element of the *live* follower slice, defaulting to
`ConnectionHealth{Healthy: false}` when the map has no entry. -/
def GetHealth (db : DBState) : Health :=
  { Leader := db.leaderHealth
    Followers := (List.range db.followers.length).map (fun i =>
      match db.followerHealthMap i with
      | some h => h
      | none => { Healthy := false }) }

/-- Repeated calls to `Follower()` threading the manager state:
the list of handles returned by `k` successive calls. -/
def followerCalls (db : DBState) : Nat → List (Option Conn)
  | 0 => []
  | k + 1 =>
      let r := Follower db
      r.2 :: followerCalls r.1 k

/-- `(*DB).WithReadOnlyTransaction` (`transaction.go:92-140`): nested
check, pick a connection via `db.Follower()`, begin a read-only
transaction, then the same deferred commit-or-rollback switch with the
read-only error messages.  Returns the updated manager state (cursor
possibly advanced by the `Follower` call) and the invocation trace.

As in `WithTransactionOptions`, the `error` result is unnamed, so the
deferred closure's assignments to `fnErr` on the rollback-failure and
commit-failure paths are dead stores: the returned error is the body's
error (or nil); only the panic-path `panic(...)` takes effect. -/
def withReadOnlyTransactionRun (db : DBState) (ctx : Context)
    (o : TxOracle) (fn : Context → FnBehavior) : DBState × TxRun :=
  -- if _, ok := ExtractTx(ctx); ok { return nested transaction error }
  if (ExtractTx ctx).2 then
    (db, ⟨false, false, false,
      .normal (some (.errorString "sqlkit: nested transaction detected"))⟩)
  else
    -- followerDB := db.Follower(); tx, err := followerDB.BeginTx(ctx, opts)
    let db' := (Follower db).1
    match o.beginResult with
    | .error e =>
        (db', ⟨true, false, false,
          .normal (some (.wrapOne
            "sqlkit: failed to begin read-only transaction: " e))⟩)
    | .ok tx =>
        let txCtx := InjectTx ctx tx
        (db',
          match fn txCtx with
          | .panics v =>
              match o.rollbackErr with
              | some rbErr =>
                  ⟨true, false, true,
                    .panicked (.goErr (.wrapOne
                      "sqlkit: read-only transaction panic and rollback failed: "
                      rbErr))⟩
              | none => ⟨true, false, true, .panicked v⟩
          | .returns (some fnErr) =>
              -- rollback attempted; the combined read-only error is written
              -- to the dead local only — the body error is returned
              ⟨true, false, true, .normal (some fnErr)⟩
          | .returns none =>
              -- commit attempted; a commit failure is written to the dead
              -- local only — nil is returned
              ⟨true, true, false, .normal none⟩)

/-! ### Configuration and DSN construction (`src/sqlkit/config.go`)

Go durations are modelled as `Int` nanoseconds.  `url.QueryEscape` and
`time.Duration.String` are reimplemented byte- and digit-faithfully. -/

/-- Sentinel from `errors.go`: invalid configuration. -/
def ErrInvalidConfig : GoError := .errorString "sqlkit: invalid configuration"

/-- UTF-8 encoding of one character (codepoint to byte list). -/
def utf8Bytes (c : Char) : List Nat :=
  let n := c.toNat
  if n < 0x80 then [n]
  else if n < 0x800 then
    [0xC0 + n / 64, 0x80 + n % 64]
  else if n < 0x10000 then
    [0xE0 + n / 4096, 0x80 + n / 64 % 64, 0x80 + n % 64]
  else
    [0xF0 + n / 262144, 0x80 + n / 4096 % 64, 0x80 + n / 64 % 64, 0x80 + n % 64]

/-- Uppercase hexadecimal digit, as used by `net/url` percent-encoding. -/
def upperHexDigit (n : Nat) : Char :=
  "0123456789ABCDEF".toList.getD n '0'

/-- Bytes `url.QueryEscape` leaves unescaped: ASCII alphanumerics and
`-`, `_`, `.`, `~`. -/
def isUnreservedByte (b : Nat) : Bool :=
  (0x41 ≤ b && b ≤ 0x5A) || (0x61 ≤ b && b ≤ 0x7A) ||
  (0x30 ≤ b && b ≤ 0x39) || b == 0x2D || b == 0x5F || b == 0x2E || b == 0x7E

/-- Escape one byte the way `url.QueryEscape` does: unreserved bytes
kept, space becomes `+`, every other byte becomes `%XX`. -/
def queryEscapeByte (b : Nat) : String :=
  if isUnreservedByte b then String.singleton (Char.ofNat b)
  else if b = 0x20 then "+"
  else String.mk ['%', upperHexDigit (b / 16), upperHexDigit (b % 16)]

/-- `url.QueryEscape`: percent-encode a string for a URL query component. -/
def queryEscape (s : String) : String :=
  String.join ((s.toList.flatMap utf8Bytes).map queryEscapeByte)

/-- The low `prec` decimal digits of `u`, most significant first
(the digits `time.Duration.String`'s `fmtFrac` would consider). -/
def fracDigits : Nat → Nat → List Nat
  | _, 0 => []
  | u, p + 1 => fracDigits (u / 10) p ++ [u % 10]

/-- `fmtFrac` from `time.Duration.String`: the fractional part `.ddd`
formed from the low `prec` digits of `u`, trailing zeros omitted, empty
when all those digits are zero. -/
def fracString (u prec : Nat) : String :=
  let ds := ((fracDigits u prec).reverse.dropWhile (· == 0)).reverse
  if ds.isEmpty then "" else "." ++ String.join (ds.map (fun d => toString d))

/-- `time.Duration.String` (Go standard library), for a duration of `d`
nanoseconds. -/
def durationString (d : Int) : String :=
  let u := d.natAbs
  let neg := d < 0
  if u < 1000000000 then
    -- less than one second: nanoseconds/microseconds/milliseconds
    if u = 0 then "0s"
    else
      let precUnit : Nat × String :=
        if u < 1000 then (0, "ns")
        else if u < 1000000 then (3, "µs")
        else (6, "ms")
      (if neg then "-" else "") ++
        toString (u / 10 ^ precUnit.1) ++ fracString u precUnit.1 ++ precUnit.2
  else
    -- seconds, minutes, hours
    let frac := fracString u 9
    let usec := u / 1000000000
    let secs := usec % 60
    let umin := usec / 60
    (if neg then "-" else "") ++
      (if umin = 0 then toString secs ++ frac ++ "s"
       else
         let mins := umin % 60
         let uhr := umin / 60
         if uhr = 0 then
           toString mins ++ "m" ++ toString secs ++ frac ++ "s"
         else
           toString uhr ++ "h" ++ toString mins ++ "m" ++
             toString secs ++ frac ++ "s")

/-- `int(d.Seconds())` for a duration of `d` nanoseconds (truncation
toward zero). -/
def durationSecondsInt (d : Int) : Int := Int.tdiv d 1000000000

/-- `d.Milliseconds()` (integer division toward zero). -/
def durationMillisInt (d : Int) : Int := Int.tdiv d 1000000

/-- `DBConfig`: configuration for a single database endpoint.
Durations in nanoseconds. -/
structure DBConfig where
  Driver : String := ""
  Host : String := ""
  Port : Int := 0
  Database : String := ""
  Username : String := ""
  Password : String := ""
  SSLMode : String := ""
  ConnectTimeout : Int := 0
  MaxRetries : Int := 0
deriving DecidableEq, Repr

/-- `(*DBConfig).DSN` (`config.go:50-88`): driver-specific connection
string with URL-encoded password. -/
def DBConfig.DSN (c : DBConfig) : String :=
  let encodedPassword := queryEscape c.Password
  if c.Driver = "postgres" then
    let t0 := durationSecondsInt c.ConnectTimeout
    let timeoutSeconds := if t0 = 0 then 5 else t0
    "host=" ++ c.Host ++ " port=" ++ toString c.Port ++ " user=" ++ c.Username ++
      " password=" ++ encodedPassword ++ " dbname=" ++ c.Database ++
      " sslmode=" ++ c.SSLMode ++ " connect_timeout=" ++ toString timeoutSeconds
  else if c.Driver = "mysql" then
    let t0 := durationString c.ConnectTimeout
    let timeoutStr := if t0 = "0s" then "5s" else t0
    c.Username ++ ":" ++ encodedPassword ++ "@tcp(" ++ c.Host ++ ":" ++
      toString c.Port ++ ")/" ++ c.Database ++ "?parseTime=true&timeout=" ++ timeoutStr
  else if c.Driver = "sqlite3" then
    let t0 := durationMillisInt c.ConnectTimeout
    let timeoutMs := if t0 = 0 then 5000 else t0
    "file:" ++ c.Database ++ "?mode=rwc&cache=shared&_busy_timeout=" ++
      toString timeoutMs
  else
    let t0 := durationSecondsInt c.ConnectTimeout
    let timeoutSeconds := if t0 = 0 then 5 else t0
    "driver=" ++ c.Driver ++ ";host=" ++ c.Host ++ ";port=" ++ toString c.Port ++
      ";database=" ++ c.Database ++ ";user id=" ++ c.Username ++
      ";password=" ++ encodedPassword ++ ";connect timeout=" ++ toString timeoutSeconds

/-- `PoolConfig`: connection pool configuration (durations in ns). -/
structure PoolConfig where
  MaxOpenConns : Int := 0
  MaxIdleConns : Int := 0
  ConnMaxLifetime : Int := 0
  ConnMaxIdleTime : Int := 0
deriving DecidableEq, Repr

/-- `DefaultPoolConfig` (`config.go:99-106`): 25 open, 5 idle, 5m
lifetime, 1m idle time. -/
def DefaultPoolConfig : PoolConfig :=
  { MaxOpenConns := 25
    MaxIdleConns := 5
    ConnMaxLifetime := 5 * 60 * 1000000000
    ConnMaxIdleTime := 60 * 1000000000 }

/-- `HealthConfig`: health check configuration (durations in ns). -/
structure HealthConfig where
  Enabled : Bool := false
  CheckInterval : Int := 0
  Timeout : Int := 0
deriving DecidableEq, Repr

/-- `DefaultHealthConfig` (`config.go:116-122`): enabled, 30s interval,
5s timeout. -/
def DefaultHealthConfig : HealthConfig :=
  { Enabled := true
    CheckInterval := 30 * 1000000000
    Timeout := 5 * 1000000000 }

/-- `Config`: the main configuration struct. -/
structure Config where
  Leader : DBConfig
  Followers : List DBConfig := []
  Pool : PoolConfig := {}
  Health : HealthConfig := {}
deriving DecidableEq, Repr

/-- The default-application step of `New` (`errors.go:216-222`):
`if cfg.Pool.MaxOpenConns == 0 { cfg.Pool = DefaultPoolConfig() }` and
`if cfg.Health.CheckInterval == 0 { cfg.Health = DefaultHealthConfig() }`. -/
def newApplyDefaults (cfg : Config) : Config :=
  let pool := if cfg.Pool.MaxOpenConns = 0 then DefaultPoolConfig else cfg.Pool
  let health := if cfg.Health.CheckInterval = 0 then DefaultHealthConfig else cfg.Health
  { cfg with Pool := pool, Health := health }

/-! ### Connection establisher (`src/sqlkit/errors.go:413-470`)

The outcome of `sql.Open` + `PingContext` at each attempt is an oracle;
the trace records every observable action of `connect`: the
`sql.Open(driver, dsn)` calls made, sleeps between attempts, handles
closed after a failed ping, the pool settings applied, and the result. -/

/-- Oracle outcome of one connection attempt: `sql.Open` fails, open
succeeds but the ping fails, or both succeed. -/
inductive AttemptOutcome where
  | openFail (e : GoError)
  | pingFail (c : Conn) (e : GoError)
  | success (c : Conn)
deriving DecidableEq, Repr

/-- Observable trace of one `connect` call. -/
structure ConnectTrace where
  /-- Number of loop iterations executed (attempts made). -/
  attempts : Nat
  /-- Sleeps between attempts, in milliseconds, in order. -/
  sleepsMs : List Nat
  /-- Handles closed after a failed ping, in order. -/
  closes : List Conn
  /-- `(driver, dsn)` of each `sql.Open` call, in order. -/
  openCalls : List (String × String)
  /-- Ping timeout used (`ConnectTimeout`, defaulted), in ns. -/
  pingTimeoutNs : Int
  /-- The returned handle or error. -/
  result : Except GoError Conn
  /-- Pool settings applied to the returned handle, if any. -/
  poolApplied : Option PoolConfig
deriving Repr

/-- The retry loop of `connect`
(`for attempt := 0; attempt < maxRetries; attempt++`).
`fuel` is the number of remaining iterations (`maxRetries - attempt`). -/
def connectLoop (driver dsn : String) (outcomes : Nat → AttemptOutcome)
    (maxRetries : Int) (pool : PoolConfig) (pingTimeout : Int) :
    Nat → Nat → List Nat → List Conn → List (String × String) → ConnectTrace
  | attempt, 0, sleeps, closes, opens =>
      -- fall-through after the loop (reachable only when maxRetries ≤ 0)
      ⟨attempt, sleeps, closes, opens, pingTimeout,
        .error (.errorString ("sqlkit: connection failed after " ++
          toString maxRetries ++ " retries")), none⟩
  | attempt, fuel + 1, sleeps, closes, opens =>
      let opens' := opens ++ [(driver, dsn)]
      match outcomes attempt with
      | .openFail e =>
          if (attempt : Int) < maxRetries - 1 then
            connectLoop driver dsn outcomes maxRetries pool pingTimeout
              (attempt + 1) fuel (sleeps ++ [(attempt + 1) * 100]) closes opens'
          else
            ⟨attempt + 1, sleeps, closes, opens', pingTimeout,
              .error (.wrapOne ("sqlkit: failed to open connection after " ++
                toString maxRetries ++ " attempts: ") e), none⟩
      | .pingFail c e =>
          let closes' := closes ++ [c]
          if (attempt : Int) < maxRetries - 1 then
            connectLoop driver dsn outcomes maxRetries pool pingTimeout
              (attempt + 1) fuel (sleeps ++ [(attempt + 1) * 100]) closes' opens'
          else
            ⟨attempt + 1, sleeps, closes', opens', pingTimeout,
              .error (.wrapOne ("sqlkit: failed to ping connection after " ++
                toString maxRetries ++ " attempts: ") e), none⟩
      | .success c =>
          let pool' := if pool.MaxOpenConns = 0 then DefaultPoolConfig else pool
          ⟨attempt + 1, sleeps, closes, opens', pingTimeout, .ok c, some pool'⟩

/-- `(*DB).connect` (`errors.go:413-470`): defaults for
`ConnectTimeout` (5s) and `MaxRetries` (3), then the retry loop.
`dbDriver` is the manager's `db.driver`; `dbPool` is `db.config.Pool`. -/
def connect (dbDriver : String) (dbPool : PoolConfig) (cfgOpt : Option DBConfig)
    (outcomes : Nat → AttemptOutcome) : ConnectTrace :=
  match cfgOpt with
  | none =>
      ⟨0, [], [], [], 0, .error (.wrapPre ErrInvalidConfig ": config is required"),
        none⟩
  | some cfg =>
      let connectTimeout := if cfg.ConnectTimeout = 0 then (5000000000 : Int)
        else cfg.ConnectTimeout
      let maxRetries := if cfg.MaxRetries = 0 then (3 : Int) else cfg.MaxRetries
      connectLoop dbDriver cfg.DSN outcomes maxRetries dbPool connectTimeout
        0 maxRetries.toNat [] [] []

/-! ### Follower initialisation (`src/sqlkit/errors.go:377-402`)

`New` sets `db.driver := cfg.Leader.Driver` and calls `connect` for the
leader and then for every follower config; follower failures are logged
and skipped.  `initFollowers` is modelled over the per-follower connect
results (`none` = that follower's `connect` returned an error). -/

/-- `(*DB).initFollowers`: append each successfully connected follower
to the live slice (at index `len(db.followers)` at the time of the
append) and mark that index healthy; failures are skipped entirely. -/
def initFollowers (results : List (Option Conn)) (now : Nat) :
    List (Option Conn) × (Nat → Option ConnectionHealth) :=
  results.foldl
    (fun acc r =>
      match r with
      | none => acc -- log warning, continue to next follower
      | some conn =>
          let idx := acc.1.length
          (acc.1 ++ [some conn],
           fun j => if j = idx then some ⟨true, now, "", 0⟩ else acc.2 j))
    ([], fun _ => none)

/-- The manager state right after `New` succeeds: leader connected and
marked healthy, followers as produced by `initFollowers`, cursor 0. -/
def stateAfterInit (leaderConn : Conn) (results : List (Option Conn))
    (now : Nat) : DBState :=
  { leader := some leaderConn
    followers := (initFollowers results now).1
    followerIdx := 0
    followerHealthMap := (initFollowers results now).2
    leaderHealth := ⟨true, now, "", 0⟩ }

/-! ## Theorems -/

/-- C9: for every context `ctx` and transaction handle `tx`,
`ExtractTx (InjectTx ctx tx)` returns `(tx, true)`; and for every
context into which no transaction was injected (no binding for the
transaction key), `ExtractTx` returns `(nil, false)`. -/
theorem extractTx_injectTx_roundtrip :
    (∀ (ctx : Context) (tx : Tx), ExtractTx (InjectTx ctx tx) = (some tx, true)) ∧
    (∀ ctx : Context, (∀ p ∈ ctx, p.1 ≠ CtxKey.txKey) →
      ExtractTx ctx = (none, false)) := by
  constructor
  · intro ctx tx
    rfl
  · intro ctx h
    unfold ExtractTx ctxValue
    have hnone : ctx.find? (fun p => p.1 == CtxKey.txKey) = none := by
      rw [List.find?_eq_none]
      intro p hp
      simpa using h p hp
    rw [hnone]
    rfl

/-- Witness for C9 at concrete inputs. -/
theorem extractTx_injectTx_roundtrip_witness :
    ExtractTx (InjectTx [] ⟨5⟩) = (some ⟨5⟩, true) ∧
    ExtractTx [(CtxKey.otherKey 1, CtxVal.otherVal 2)] = (none, false) :=
  ⟨extractTx_injectTx_roundtrip.1 [] ⟨5⟩,
   extractTx_injectTx_roundtrip.2 [(CtxKey.otherKey 1, CtxVal.otherVal 2)]
     (by decide)⟩

/-- C3: on a context that already carries an active transaction handle,
each of `WithTransaction`, `WithTransactionOptions` and
`WithReadOnlyTransaction` returns the nested-transaction error
immediately: `BeginTx` is never called, neither commit nor rollback is
attempted, and (for the read-only variant) the manager state is left
untouched. -/
theorem nested_transaction_rejected (ctx : Context) (db : DBState)
    (opts : Option TxOptions) (o : TxOracle) (fn : Context → FnBehavior)
    (h : (ExtractTx ctx).2 = true) :
    withTransactionOptionsRun ctx opts o fn =
      ⟨false, false, false,
        .normal (some (.errorString "sqlkit: nested transaction detected"))⟩ ∧
    withTransactionRun ctx o fn =
      ⟨false, false, false,
        .normal (some (.errorString "sqlkit: nested transaction detected"))⟩ ∧
    withReadOnlyTransactionRun db ctx o fn =
      (db, ⟨false, false, false,
        .normal (some (.errorString "sqlkit: nested transaction detected"))⟩) := by
  unfold withTransactionRun withTransactionOptionsRun withReadOnlyTransactionRun
  rw [h]
  simp

/-- Witness for C3: a context holding an injected transaction. -/
theorem nested_transaction_rejected_witness :
    withTransactionRun (InjectTx [] ⟨7⟩) ⟨.ok ⟨8⟩, none, none⟩
        (fun _ => .returns none) =
      ⟨false, false, false,
        .normal (some (.errorString "sqlkit: nested transaction detected"))⟩ :=
  (nested_transaction_rejected (InjectTx [] ⟨7⟩)
    ⟨some 0, [], 0, fun _ => none, ⟨true, 0, "", 0⟩⟩
    none ⟨.ok ⟨8⟩, none, none⟩ (fun _ => .returns none) (by decide)).2.1

/-- C1 (evaluation at the failing inputs): because the `error` results
of `WithTransactionOptions` and `WithReadOnlyTransaction` are unnamed,
`return fnErr` fixes the returned value before the deferred closure
runs and the closure's error-wrapping writes are lost.  On a
nil-returning body with a failing commit, the commit is attempted (and
only the commit) but the call returns nil; on an erroring body with a
failing rollback, the rollback is attempted (and only the rollback) but
the call returns the bare body error with the rollback failure dropped
-- contradicting the claim that a commit failure is returned as the
operation's error and a rollback failure wrapped alongside the body
error. -/
theorem withTransaction_deferred_error_writes_lost :
    withTransactionOptionsRun [] none
        ⟨.ok ⟨1⟩, none, some (.errorString "commit refused")⟩
        (fun _ => .returns none) =
      ⟨true, true, false, .normal none⟩ ∧
    withTransactionOptionsRun [] none
        ⟨.ok ⟨1⟩, some (.errorString "rb failed"), none⟩
        (fun _ => .returns (some (.errorString "body error"))) =
      ⟨true, false, true, .normal (some (.errorString "body error"))⟩ ∧
    (withReadOnlyTransactionRun
        ⟨some 0, [], 0, fun _ => none, ⟨true, 0, "", 0⟩⟩ []
        ⟨.ok ⟨1⟩, none, some (.errorString "commit refused")⟩
        (fun _ => .returns none)).2 =
      ⟨true, true, false, .normal none⟩ ∧
    (withReadOnlyTransactionRun
        ⟨some 0, [], 0, fun _ => none, ⟨true, 0, "", 0⟩⟩ []
        ⟨.ok ⟨1⟩, some (.errorString "rb failed"), none⟩
        (fun _ => .returns (some (.errorString "body error")))).2 =
      ⟨true, false, true, .normal (some (.errorString "body error"))⟩ :=
  ⟨rfl, rfl, rfl, rfl⟩

/-- C2 (evaluation at the failing input): when the body panics and the
rollback also fails, the re-raised panic value is an error wrapping only
the rollback error — the original panic value is dropped, as witnessed
by two runs with different panic values producing identical outcomes.
Shown for both `WithTransactionOptions` and `WithReadOnlyTransaction`. -/
theorem withTransaction_panic_rollback_failure_eval :
    withTransactionOptionsRun [] none
        ⟨.ok ⟨1⟩, some (.errorString "rollback failed"), none⟩
        (fun _ => .panics (.raw "boom")) =
      ⟨true, false, true, .panicked (.goErr (.wrapOne
        "sqlkit: transaction panic and rollback failed: "
        (.errorString "rollback failed")))⟩ ∧
    withTransactionOptionsRun [] none
        ⟨.ok ⟨1⟩, some (.errorString "rollback failed"), none⟩
        (fun _ => .panics (.raw "boom")) =
      withTransactionOptionsRun [] none
        ⟨.ok ⟨1⟩, some (.errorString "rollback failed"), none⟩
        (fun _ => .panics (.raw "a different panic value")) ∧
    (withReadOnlyTransactionRun
        ⟨some 0, [], 0, fun _ => none, ⟨true, 0, "", 0⟩⟩ []
        ⟨.ok ⟨1⟩, some (.errorString "rollback failed"), none⟩
        (fun _ => .panics (.raw "boom"))).2 =
      ⟨true, false, true, .panicked (.goErr (.wrapOne
        "sqlkit: read-only transaction panic and rollback failed: "
        (.errorString "rollback failed")))⟩ :=
  ⟨rfl, rfl, rfl⟩

/-- C7: `DSN()` produces exactly the per-driver connection string the
spec gives — postgres key/value form, mysql `user:pass@tcp(...)` form,
sqlite3 `file:` form, generic semicolon fallback for any other driver —
with the password URL-escaped and per-driver timeout defaults
(5 / "5s" / 5000) when `ConnectTimeout` is zero. -/
theorem dsn_per_driver (c : DBConfig) :
    (c.Driver = "postgres" →
      c.DSN = "host=" ++ c.Host ++ " port=" ++ toString c.Port ++
        " user=" ++ c.Username ++ " password=" ++ queryEscape c.Password ++
        " dbname=" ++ c.Database ++ " sslmode=" ++ c.SSLMode ++
        " connect_timeout=" ++ toString (if durationSecondsInt c.ConnectTimeout = 0
          then 5 else durationSecondsInt c.ConnectTimeout)) ∧
    (c.Driver = "postgres" → c.ConnectTimeout = 0 →
      c.DSN = "host=" ++ c.Host ++ " port=" ++ toString c.Port ++
        " user=" ++ c.Username ++ " password=" ++ queryEscape c.Password ++
        " dbname=" ++ c.Database ++ " sslmode=" ++ c.SSLMode ++
        " connect_timeout=" ++ "5") ∧
    (c.Driver = "mysql" →
      c.DSN = c.Username ++ ":" ++ queryEscape c.Password ++ "@tcp(" ++
        c.Host ++ ":" ++ toString c.Port ++ ")/" ++ c.Database ++
        "?parseTime=true&timeout=" ++
        (if durationString c.ConnectTimeout = "0s" then "5s"
         else durationString c.ConnectTimeout)) ∧
    (c.Driver = "mysql" → c.ConnectTimeout = 0 →
      c.DSN = c.Username ++ ":" ++ queryEscape c.Password ++ "@tcp(" ++
        c.Host ++ ":" ++ toString c.Port ++ ")/" ++ c.Database ++
        "?parseTime=true&timeout=" ++ "5s") ∧
    (c.Driver = "sqlite3" →
      c.DSN = "file:" ++ c.Database ++ "?mode=rwc&cache=shared&_busy_timeout=" ++
        toString (if durationMillisInt c.ConnectTimeout = 0 then 5000
          else durationMillisInt c.ConnectTimeout)) ∧
    (c.Driver = "sqlite3" → c.ConnectTimeout = 0 →
      c.DSN = "file:" ++ c.Database ++
        "?mode=rwc&cache=shared&_busy_timeout=" ++ "5000") ∧
    (c.Driver ≠ "postgres" → c.Driver ≠ "mysql" → c.Driver ≠ "sqlite3" →
      c.DSN = "driver=" ++ c.Driver ++ ";host=" ++ c.Host ++ ";port=" ++
        toString c.Port ++ ";database=" ++ c.Database ++ ";user id=" ++
        c.Username ++ ";password=" ++ queryEscape c.Password ++
        ";connect timeout=" ++ toString (if durationSecondsInt c.ConnectTimeout = 0
          then 5 else durationSecondsInt c.ConnectTimeout)) := by
  refine ⟨?_, ?_, ?_, ?_, ?_, ?_, ?_⟩ <;> intro h
  · simp [DBConfig.DSN, h]
  · intro h0; simp [DBConfig.DSN, h, h0]; rfl
  · simp [DBConfig.DSN, h]
  · intro h0; simp [DBConfig.DSN, h, h0]; rfl
  · simp [DBConfig.DSN, h]
  · intro h0; simp [DBConfig.DSN, h, h0]; rfl
  · intro h2 h3; simp [DBConfig.DSN, h, h2, h3]

/-- Sample postgres endpoint (C7 witness). -/
def sampleEndpointPg : DBConfig :=
  { Driver := "postgres", Host := "h", Port := 5432, Database := "db", Username := "u", Password := "p w", SSLMode := "disable" }

/-- Sample mysql endpoint (C7 witness). -/
def sampleEndpointMy : DBConfig :=
  { Driver := "mysql", Host := "h", Port := 3306, Database := "db", Username := "u", Password := "p@ss" }

/-- Sample sqlite3 endpoint (C7 witness). -/
def sampleEndpointLite : DBConfig :=
  { Driver := "sqlite3", Database := "db" }

/-- Sample unknown-driver endpoint (C7 witness). -/
def sampleEndpointOther : DBConfig :=
  { Driver := "oracle", Host := "h", Port := 1, Database := "db", Username := "u", Password := "p" }

/-- Witness for C7: concrete configurations for each driver, evaluated
to literal connection strings. -/
theorem dsn_per_driver_witness :
    sampleEndpointPg.DSN =
      "host=h port=5432 user=u password=p+w dbname=db sslmode=disable connect_timeout=5" ∧
    sampleEndpointMy.DSN =
      "u:p%40ss@tcp(h:3306)/db?parseTime=true&timeout=5s" ∧
    sampleEndpointLite.DSN =
      "file:db?mode=rwc&cache=shared&_busy_timeout=5000" ∧
    sampleEndpointOther.DSN =
      "driver=oracle;host=h;port=1;database=db;user id=u;password=p;connect timeout=5" := by
  refine ⟨?_, ?_, ?_, ?_⟩
  · exact ((dsn_per_driver sampleEndpointPg).2.1 rfl rfl).trans (by decide)
  · exact ((dsn_per_driver sampleEndpointMy).2.2.2.1 rfl rfl).trans (by decide)
  · exact ((dsn_per_driver sampleEndpointLite).2.2.2.2.2.1 rfl rfl).trans (by decide)
  · exact ((dsn_per_driver sampleEndpointOther).2.2.2.2.2.2 (by decide) (by decide)
      (by decide)).trans (by decide)

/-- C8 counterexample: a config with `MaxOpenConns = 10` and
`MaxIdleConns = 0` keeps the effective idle limit at 0, not the claimed
default 5 — zero-valued fields are not individually defaulted. -/
theorem pool_defaults_not_fieldwise :
    (newApplyDefaults { Leader := {}, Pool := { MaxOpenConns := 10 } }).Pool =
      { MaxOpenConns := 10, MaxIdleConns := 0, ConnMaxLifetime := 0,
        ConnMaxIdleTime := 0 } ∧
    (newApplyDefaults { Leader := {}, Pool := { MaxOpenConns := 10 } }).Pool.MaxIdleConns ≠ 5 :=
  ⟨rfl, by decide⟩

/-- C8 amended: `New` applies defaults wholesale, not field by field:
when `Pool.MaxOpenConns` is zero the entire pool policy is replaced by
the defaults (25 open / 5 idle / 5m lifetime / 1m idle-time), otherwise
the caller's pool struct is kept as-is (zero-valued fields included);
when `Health.CheckInterval` is zero the entire health policy is replaced
by the defaults (enabled / 30s interval / 5s timeout), otherwise the
caller's health struct is kept as-is. -/
theorem pool_health_defaults_wholesale (cfg : Config) :
    (cfg.Pool.MaxOpenConns = 0 →
      (newApplyDefaults cfg).Pool = DefaultPoolConfig) ∧
    (cfg.Pool.MaxOpenConns ≠ 0 → (newApplyDefaults cfg).Pool = cfg.Pool) ∧
    (cfg.Health.CheckInterval = 0 →
      (newApplyDefaults cfg).Health = DefaultHealthConfig) ∧
    (cfg.Health.CheckInterval ≠ 0 →
      (newApplyDefaults cfg).Health = cfg.Health) ∧
    DefaultPoolConfig =
      { MaxOpenConns := 25, MaxIdleConns := 5,
        ConnMaxLifetime := 5 * 60 * 1000000000,
        ConnMaxIdleTime := 60 * 1000000000 } ∧
    DefaultHealthConfig =
      { Enabled := true, CheckInterval := 30 * 1000000000,
        Timeout := 5 * 1000000000 } := by
  refine ⟨?_, ?_, ?_, ?_, rfl, rfl⟩ <;> intro h <;>
    simp [newApplyDefaults, h]

/-- Witness for C8 (amended): a caller-set `MaxOpenConns = 10` keeps the
whole pool struct, including the zero idle limit. -/
theorem pool_health_defaults_wholesale_witness :
    (newApplyDefaults { Leader := {}, Pool := { MaxOpenConns := 10 } }).Pool =
      { MaxOpenConns := 10 } :=
  (pool_health_defaults_wholesale
    { Leader := {}, Pool := { MaxOpenConns := 10 } }).2.1 (by decide)

/-! ### Lemmas about the connection establisher -/

/-- The connection handle discarded by an attempt, if its ping failed. -/
def pingFailConn (o : AttemptOutcome) : Option Conn :=
  match o with
  | .pingFail c _ => some c
  | _ => none

/-- The error `connect` returns when its final attempt fails. -/
def lastFailError (outcomes : Nat → AttemptOutcome) (mr : Int) (last : Nat) :
    GoError :=
  match outcomes last with
  | .openFail e =>
      .wrapOne ("sqlkit: failed to open connection after " ++ toString mr ++
        " attempts: ") e
  | .pingFail _ e =>
      .wrapOne ("sqlkit: failed to ping connection after " ++ toString mr ++
        " attempts: ") e
  | .success _ => .errorString "unreachable"

/-- Splitting a map over `range (m+1)` at its head. -/
theorem range_map_offset_cons {α : Type} (f : Nat → α) (m : Nat) :
    (List.range (m + 1)).map f = f 0 :: (List.range m).map (fun k => f (k + 1)) := by
  rw [List.range_succ_eq_map]
  simp [List.map_map, Function.comp_def]

/-- Splitting a filterMap over `range (m+1)` at its head. -/
theorem range_filterMap_offset {β : Type} (g : Nat → Option β) (m : Nat) :
    (List.range (m + 1)).filterMap g =
      (match g 0 with | some b => [b] | none => []) ++
        (List.range m).filterMap (fun k => g (k + 1)) := by
  rw [List.range_succ_eq_map, List.filterMap_cons]
  cases h : g 0 <;> simp [h, List.filterMap_map, Function.comp_def]

/-- Every `sql.Open` call recorded by the retry loop uses the driver and
DSN the loop was given. -/
theorem connectLoop_openCalls_mem (driver dsn : String)
    (outcomes : Nat → AttemptOutcome) (mr : Int) (pool : PoolConfig) (pt : Int) :
    ∀ (fuel attempt : Nat) (sleeps : List Nat) (closes : List Conn)
      (opens : List (String × String)),
      ∀ x ∈ (connectLoop driver dsn outcomes mr pool pt
              attempt fuel sleeps closes opens).openCalls,
        x ∈ opens ∨ x = (driver, dsn) := by
  intro fuel
  induction fuel with
  | zero =>
      intro a s c o x hx
      exact Or.inl hx
  | succ n ih =>
      intro a s c o x hx
      unfold connectLoop at hx
      rcases houtcome : outcomes a with e | ⟨cc, e⟩ | cc <;>
        rw [houtcome] at hx <;> dsimp only at hx
      · split at hx
        · rcases ih (a + 1) _ _ _ x hx with hmem | heq
          · rcases List.mem_append.mp hmem with h1 | h2
            · exact Or.inl h1
            · exact Or.inr (by simpa using h2)
          · exact Or.inr heq
        · rcases List.mem_append.mp hx with h1 | h2
          · exact Or.inl h1
          · exact Or.inr (by simpa using h2)
      · split at hx
        · rcases ih (a + 1) _ _ _ x hx with hmem | heq
          · rcases List.mem_append.mp hmem with h1 | h2
            · exact Or.inl h1
            · exact Or.inr (by simpa using h2)
          · exact Or.inr heq
        · rcases List.mem_append.mp hx with h1 | h2
          · exact Or.inl h1
          · exact Or.inr (by simpa using h2)
      · rcases List.mem_append.mp hx with h1 | h2
        · exact Or.inl h1
        · exact Or.inr (by simpa using h2)

/-- C10: every connection the manager opens is opened under the leader's
driver identifier (`db.driver = cfg.Leader.Driver`): each `sql.Open`
call made while connecting a follower `f` passes the leader's driver
together with `f`'s own DSN (which is built from `f.Driver`); a follower
declaring a different driver than the leader is therefore never opened
under its own driver.  The leader itself is opened the same way. -/
theorem connections_use_leader_driver (cfg : Config) (f : DBConfig)
    (pool : PoolConfig) (outcomes : Nat → AttemptOutcome) :
    (∀ call ∈ (connect cfg.Leader.Driver pool (some f) outcomes).openCalls,
       call = (cfg.Leader.Driver, f.DSN)) ∧
    (f.Driver ≠ cfg.Leader.Driver →
      ∀ call ∈ (connect cfg.Leader.Driver pool (some f) outcomes).openCalls,
        call.1 ≠ f.Driver) ∧
    (∀ call ∈ (connect cfg.Leader.Driver pool (some cfg.Leader) outcomes).openCalls,
       call = (cfg.Leader.Driver, cfg.Leader.DSN)) := by
  have hmain : ∀ (ep : DBConfig),
      ∀ call ∈ (connect cfg.Leader.Driver pool (some ep) outcomes).openCalls,
        call = (cfg.Leader.Driver, ep.DSN) := by
    intro ep call hcall
    unfold connect at hcall
    rcases connectLoop_openCalls_mem cfg.Leader.Driver ep.DSN outcomes _ pool _
      _ 0 [] [] [] call hcall with hmem | heq
    · simp at hmem
    · exact heq
  refine ⟨hmain f, ?_, hmain cfg.Leader⟩
  intro hne call hcall
  rw [hmain f call hcall]
  simpa using fun h => hne h.symm

/-- Witness for C10: a mysql-declared follower under a postgres leader is
opened with driver "postgres" and the follower's mysql-format DSN. -/
theorem connections_use_leader_driver_witness :
    (connect "postgres" {} (some sampleEndpointMy)
        (fun _ => .success 1)).openCalls =
      [("postgres", "u:p%40ss@tcp(h:3306)/db?parseTime=true&timeout=5s")] ∧
    (("postgres", "u:p%40ss@tcp(h:3306)/db?parseTime=true&timeout=5s") :
        String × String).1 ≠ sampleEndpointMy.Driver := by
  constructor
  · decide
  · exact (connections_use_leader_driver
      { Leader := sampleEndpointPg, Followers := [sampleEndpointMy] }
      sampleEndpointMy {} (fun _ => .success 1)).2.1 (by decide) _ (by decide)

/-- The retry loop on persistently failing attempts: runs all remaining
iterations, sleeps `(attempt+1) × 100ms` after every non-final failed
attempt, closes the handle of every ping-failed attempt, opens once per
attempt, and ends with the error for the final attempt. -/
theorem connectLoop_all_fail (driver dsn : String)
    (outcomes : Nat → AttemptOutcome) (mr : Int) (pool : PoolConfig) (pt : Int)
    (hfail : ∀ i c, outcomes i ≠ .success c) :
    ∀ (fuel attempt : Nat) (sleeps : List Nat) (closes : List Conn)
      (opens : List (String × String)),
      0 < fuel →
      (attempt : Int) + fuel = mr →
      connectLoop driver dsn outcomes mr pool pt attempt fuel sleeps closes opens =
        ⟨attempt + fuel,
         sleeps ++ (List.range' (attempt + 1) (fuel - 1)).map (fun k => k * 100),
         closes ++ (List.range' attempt fuel).filterMap
           (fun k => pingFailConn (outcomes k)),
         opens ++ List.replicate fuel (driver, dsn),
         pt,
         .error (lastFailError outcomes mr (attempt + fuel - 1)),
         none⟩ := by
  intro fuel
  induction fuel with
  | zero => intro a s c o h0 _; omega
  | succ n ih =>
      intro a s c o _ hsum
      unfold connectLoop
      rcases houtcome : outcomes a with e | ⟨cc, e⟩ | cc <;> dsimp only
      · -- sql.Open failed
        by_cases hlt : (a : Int) < mr - 1
        · obtain ⟨m, rfl⟩ : ∃ m, n = m + 1 := ⟨n - 1, by omega⟩
          rw [if_pos hlt, ih (a + 1) _ _ _ (by omega) (by push_cast; omega)]
          congr 1
          · omega
          · rw [show List.range' (a + 1) (m + 1 + 1 - 1) =
                (a + 1) :: List.range' (a + 1 + 1) m from rfl]
            simp [List.append_assoc]
          · rw [show List.range' a (m + 1 + 1) =
                a :: List.range' (a + 1) (m + 1) from rfl, List.filterMap_cons]
            simp [houtcome, pingFailConn]
          · simp [List.replicate_succ, List.append_assoc]
          · have : a + 1 + (m + 1) - 1 = a + (m + 1 + 1) - 1 := by omega
            rw [this]
        · have hn : n = 0 := by omega
          subst hn
          rw [if_neg hlt]
          rw [show List.range' (a + 1) (1 - 1) = [] from rfl,
            show List.range' a 1 = [a] from rfl, List.filterMap_cons]
          simp [houtcome, pingFailConn, lastFailError]
      · -- open succeeded, ping failed: close the handle
        by_cases hlt : (a : Int) < mr - 1
        · obtain ⟨m, rfl⟩ : ∃ m, n = m + 1 := ⟨n - 1, by omega⟩
          rw [if_pos hlt, ih (a + 1) _ _ _ (by omega) (by push_cast; omega)]
          congr 1
          · omega
          · rw [show List.range' (a + 1) (m + 1 + 1 - 1) =
                (a + 1) :: List.range' (a + 1 + 1) m from rfl]
            simp [List.append_assoc]
          · rw [show List.range' a (m + 1 + 1) =
                a :: List.range' (a + 1) (m + 1) from rfl, List.filterMap_cons]
            simp [houtcome, pingFailConn, List.append_assoc]
          · simp [List.replicate_succ, List.append_assoc]
          · have : a + 1 + (m + 1) - 1 = a + (m + 1 + 1) - 1 := by omega
            rw [this]
        · have hn : n = 0 := by omega
          subst hn
          rw [if_neg hlt]
          rw [show List.range' (a + 1) (1 - 1) = [] from rfl,
            show List.range' a 1 = [a] from rfl, List.filterMap_cons]
          simp [houtcome, pingFailConn, lastFailError]
      · exact absurd houtcome (hfail a cc)

/-- C6 (amended): on an endpoint whose open or ping persistently fails,
`connect` performs exactly `MaxRetries` attempts (3 when `MaxRetries` is
zero), sleeps `attempt × 100ms` between consecutive attempts (a strictly
increasing sequence 100ms, 200ms, ...), closes the handle of every
attempt whose ping failed, and after the last attempt returns a
connection error naming the number of attempts. -/
theorem connect_retries_with_backoff (driver : String) (pool : PoolConfig)
    (cfg : DBConfig) (outcomes : Nat → AttemptOutcome)
    (hfail : ∀ i c, outcomes i ≠ .success c) :
    ∀ mr : Int, mr = (if cfg.MaxRetries = 0 then 3 else cfg.MaxRetries) →
    0 < mr →
    (connect driver pool (some cfg) outcomes).attempts = mr.toNat ∧
    (cfg.MaxRetries = 0 → (connect driver pool (some cfg) outcomes).attempts = 3) ∧
    (connect driver pool (some cfg) outcomes).sleepsMs =
      (List.range' 1 (mr.toNat - 1)).map (fun k => k * 100) ∧
    List.Pairwise (· < ·) (connect driver pool (some cfg) outcomes).sleepsMs ∧
    (connect driver pool (some cfg) outcomes).closes =
      (List.range' 0 mr.toNat).filterMap (fun k => pingFailConn (outcomes k)) ∧
    (connect driver pool (some cfg) outcomes).result =
      .error (lastFailError outcomes mr (mr.toNat - 1)) := by
  intro mr hmr hpos
  have htrace : connect driver pool (some cfg) outcomes =
      ⟨0 + mr.toNat,
       [] ++ (List.range' (0 + 1) (mr.toNat - 1)).map (fun k => k * 100),
       [] ++ (List.range' 0 mr.toNat).filterMap
         (fun k => pingFailConn (outcomes k)),
       [] ++ List.replicate mr.toNat (driver, cfg.DSN),
       (if cfg.ConnectTimeout = 0 then (5000000000 : Int) else cfg.ConnectTimeout),
       .error (lastFailError outcomes mr (0 + mr.toNat - 1)),
       none⟩ := by
    unfold connect
    dsimp only
    rw [← hmr]
    exact connectLoop_all_fail driver cfg.DSN outcomes mr pool _ hfail
      mr.toNat 0 [] [] [] (by omega) (by omega)
  rw [htrace]
  refine ⟨by simp, ?_, by simp, ?_, by simp, by simp⟩
  · intro h0
    have : mr = 3 := by rw [hmr, if_pos h0]
    simp [this]
  · dsimp only
    rw [List.nil_append]
    exact (List.pairwise_lt_range' _ _).map _ (by intro a b hab; omega)

/-- Sample always-failing outcome stream: even attempts fail at open,
odd attempts fail at ping (handle 7). -/
def sampleFailOutcomes : Nat → AttemptOutcome := fun i =>
  if i % 2 = 0 then .openFail (.errorString "open fail")
  else .pingFail 7 (.errorString "ping fail")

/-- Sample endpoint with `MaxRetries` unset (defaults to 3). -/
def sampleRetryCfg : DBConfig :=
  { Driver := "postgres", Host := "h", Database := "db" }

/-- Witness for C6 (amended): three attempts, sleeps 100ms then 200ms,
the ping-failed handle closed. -/
theorem connect_retries_with_backoff_witness :
    (connect "postgres" {} (some sampleRetryCfg) sampleFailOutcomes).attempts = 3 ∧
    (connect "postgres" {} (some sampleRetryCfg) sampleFailOutcomes).sleepsMs =
      [100, 200] ∧
    (connect "postgres" {} (some sampleRetryCfg) sampleFailOutcomes).closes = [7] := by
  have h := connect_retries_with_backoff "postgres" {} sampleRetryCfg
    sampleFailOutcomes
    (by intro i c; simp only [sampleFailOutcomes]; split <;> simp)
    3 (by decide) (by decide)
  exact ⟨h.1.trans (by decide), h.2.2.1.trans (by decide),
    h.2.2.2.2.1.trans (by decide)⟩

/-- Sample always-open-failing outcome stream. -/
def alwaysOpenFail : Nat → AttemptOutcome :=
  fun _ => .openFail (.errorString "dial tcp: connection refused")

/-- C6 counterexample: the error `connect` returns after exhausting its
retries names the attempt count, not the endpoint role — its message
contains neither "leader" nor "follower". -/
theorem connect_error_names_no_role :
    (connect "postgres" {} (some sampleRetryCfg) alwaysOpenFail).result =
      .error (.wrapOne "sqlkit: failed to open connection after 3 attempts: "
        (.errorString "dial tcp: connection refused")) ∧
    GoError.message (.wrapOne "sqlkit: failed to open connection after 3 attempts: "
        (.errorString "dial tcp: connection refused")) =
      "sqlkit: failed to open connection after 3 attempts: dial tcp: connection refused" ∧
    ¬ List.IsInfix "leader".toList
      "sqlkit: failed to open connection after 3 attempts: dial tcp: connection refused".toList ∧
    ¬ List.IsInfix "follower".toList
      "sqlkit: failed to open connection after 3 attempts: dial tcp: connection refused".toList :=
  ⟨rfl, rfl,
    by set_option maxRecDepth 4000 in decide,
    by set_option maxRecDepth 4000 in decide⟩

/-! ### Lemmas about follower initialisation -/

/-- Invariant of the `initFollowers` fold: starting from a follower
slice `fs` whose health map marks exactly the indices below `fs.length`
healthy, folding the remaining connect results appends the successes (in
order) and extends the healthy prefix accordingly. -/
theorem initFollowers_foldl_inv (now : Nat) :
    ∀ (results : List (Option Conn)) (fs : List (Option Conn))
      (hm : Nat → Option ConnectionHealth),
      (∀ j, hm j = if j < fs.length then some ⟨true, now, "", 0⟩ else none) →
      (results.foldl
        (fun acc r =>
          match r with
          | none => acc
          | some conn =>
              let idx := acc.1.length
              (acc.1 ++ [some conn],
               fun j => if j = idx then some ⟨true, now, "", 0⟩ else acc.2 j))
        (fs, hm)).1 = fs ++ (results.filterMap id).map some ∧
      ∀ j, (results.foldl
        (fun acc r =>
          match r with
          | none => acc
          | some conn =>
              let idx := acc.1.length
              (acc.1 ++ [some conn],
               fun j => if j = idx then some ⟨true, now, "", 0⟩ else acc.2 j))
        (fs, hm)).2 j =
          if j < fs.length + (results.filterMap id).length then
            some ⟨true, now, "", 0⟩ else none := by
  intro results
  induction results with
  | nil =>
      intro fs hm hhm
      refine ⟨by simp, ?_⟩
      intro j
      simpa using hhm j
  | cons r rs ih =>
      intro fs hm hhm
      cases r with
      | none =>
          have h := ih fs hm hhm
          refine ⟨?_, ?_⟩
          · simpa using h.1
          · intro j
            simpa using h.2 j
      | some conn =>
          have hinv : ∀ j,
              (if j = fs.length then some (⟨true, now, "", 0⟩ : ConnectionHealth)
                else hm j) =
              if j < (fs ++ [some conn]).length then some ⟨true, now, "", 0⟩
              else none := by
            intro j
            by_cases hj : j = fs.length
            · subst hj; simp
            · rw [if_neg hj, hhm j, List.length_append, List.length_singleton]
              split_ifs <;> first | rfl | omega
          have h := ih (fs ++ [some conn])
            (fun j => if j = fs.length then some ⟨true, now, "", 0⟩ else hm j)
            hinv
          refine ⟨?_, ?_⟩
          · rw [List.foldl_cons]
            dsimp only
            rw [h.1]
            simp [List.append_assoc]
          · intro j
            rw [List.foldl_cons]
            dsimp only
            rw [h.2 j]
            have hlen : (fs ++ [some conn]).length + (List.filterMap id rs).length =
                fs.length + (List.filterMap id (some conn :: rs)).length := by
              simp
              omega
            rw [hlen]

/-- C5 (amended): after `New`, the live follower list is the list of
*successfully connected* followers in configuration order, compacted —
a follower whose connection failed contributes no slot at all, later
successful followers shift down — and the health table (hence
`GetHealth().Followers`) has exactly one entry per connected follower,
initially healthy; failed configured positions have no health entry. -/
theorem initFollowers_compacts (results : List (Option Conn)) (now : Nat)
    (lc : Conn) :
    (initFollowers results now).1 = (results.filterMap id).map some ∧
    (∀ j, (initFollowers results now).2 j =
      if j < (results.filterMap id).length then some ⟨true, now, "", 0⟩
      else none) ∧
    (GetHealth (stateAfterInit lc results now)).Followers =
      List.replicate (results.filterMap id).length ⟨true, now, "", 0⟩ := by
  have h := initFollowers_foldl_inv now results [] (fun _ => none) (by intro j; simp)
  have h1 : (initFollowers results now).1 = (results.filterMap id).map some := by
    have := h.1
    simpa [initFollowers] using this
  have h2 : ∀ j, (initFollowers results now).2 j =
      if j < (results.filterMap id).length then some ⟨true, now, "", 0⟩
      else none := by
    intro j
    have := h.2 j
    simpa [initFollowers] using this
  refine ⟨h1, h2, ?_⟩
  unfold GetHealth stateAfterInit
  simp only [h1, List.length_map]
  rw [List.eq_replicate_iff]
  constructor
  · simp
  · intro b hb
    rcases List.mem_map.mp hb with ⟨i, hi, hbi⟩
    rw [List.mem_range] at hi
    rw [h2 i] at hbi
    rw [if_pos hi] at hbi
    exact hbi.symm

/-- Witness for C5 (amended): two configured followers, the first
failing — the live list holds only the second follower's handle, shifted
down to index 0, and the health report has a single (healthy) entry. -/
theorem initFollowers_compacts_witness :
    (initFollowers [none, some 7] 0).1 = [some 7] ∧
    (GetHealth (stateAfterInit 1 [none, some 7] 0)).Followers =
      [⟨true, 0, "", 0⟩] := by
  have h := initFollowers_compacts [none, some 7] 0 1
  exact ⟨h.1.trans (by decide), h.2.2.trans (by decide)⟩

/-- C5 counterexample: with followers `[#0 fails, #1 succeeds]`, the
live list has one (not two) slots and no structurally absent slot at
position 0 — the successful follower occupies position 0, not its
configured position 1 — the health table marks position 0 healthy
rather than unhealthy, it has no entry for position 1, and
`GetHealth().Followers` reports one entry instead of one per configured
position. -/
theorem failed_follower_position_dropped :
    (initFollowers [none, some 7] 0).1.length = 1 ∧
    (initFollowers [none, some 7] 0).1.getD 0 none = some 7 ∧
    (initFollowers [none, some 7] 0).2 0 = some ⟨true, 0, "", 0⟩ ∧
    (initFollowers [none, some 7] 0).2 1 = none ∧
    (GetHealth (stateAfterInit 1 [none, some 7] 0)).Followers.length = 1 ∧
    (GetHealth (stateAfterInit 1 [none, some 7] 0)).Followers.length ≠ 2 :=
  ⟨rfl, rfl, rfl, rfl, rfl, by decide⟩

/-! ### Lemmas about the follower router

`window s n` is the sequence of slot indices the `Follower` loop probes
when the cursor is `s`: `(s+0)%n, (s+1)%n, ..., (s+n-1)%n`.
`selectableList db` is that window restricted to the positions the loop
would accept (healthy in the table and holding a non-nil handle); the
loop returns the first of them. -/

/-- The cyclic probe order of the `Follower` loop starting at cursor `s`. -/
def window (s n : Nat) : List Nat :=
  (List.range n).map (fun k => (s + k) % n)

/-- The selectable positions in probe order, starting at the cursor. -/
def selectableList (db : DBState) : List Nat :=
  (window db.followerIdx db.followers.length).filter (selectable db)

/-- The probe window only depends on the cursor modulo `n`. -/
theorem window_mod (s n : Nat) : window (s % n) n = window s n := by
  unfold window
  apply List.map_congr_left
  intro k _
  exact Nat.mod_add_mod s n k

/-- The probe window visits no slot twice. -/
theorem window_nodup (s n : Nat) : (window s n).Nodup := by
  rcases Nat.eq_zero_or_pos n with h | hn
  · subst h
    simp [window]
  · apply List.Nodup.map_on ?_ (List.nodup_range n)
    intro a ha b hb hab
    rw [List.mem_range] at ha hb
    have h2 : a % n = b % n := Nat.ModEq.add_left_cancel' s hab
    rwa [Nat.mod_eq_of_lt ha, Nat.mod_eq_of_lt hb] at h2

/-- The probe window is a permutation of all slot indices. -/
theorem window_perm (s n : Nat) : (window s n).Perm (List.range n) := by
  rcases Nat.eq_zero_or_pos n with h | hn
  · subst h
    simp [window]
  · apply List.Subperm.perm_of_length_le
    · apply List.subperm_of_subset (window_nodup s n)
      intro x hx
      rcases List.mem_map.mp hx with ⟨k, _, hk⟩
      rw [← hk]
      exact List.mem_range.mpr (Nat.mod_lt _ hn)
    · simp [window]

/-- If the remaining probe sequence contains a selectable slot, the scan
returns the first one, with the cursor advanced past it. -/
theorem followerScan_found (db : DBState) (s : Nat) :
    ∀ (fuel i cur j : Nat) (rest : List Nat),
      ((List.range fuel).map
          (fun k => (s + i + k) % db.followers.length)).filter (selectable db) =
        j :: rest →
      followerScan db s i fuel cur =
        ((j + 1) % db.followers.length, db.followers.getD j none) := by
  intro fuel
  induction fuel with
  | zero => intro i cur j rest h; simp at h
  | succ m ih =>
      intro i cur j rest h
      rw [range_map_offset_cons (fun k => (s + i + k) % db.followers.length) m,
        List.filter_cons] at h
      simp only [Nat.add_zero] at h
      unfold followerScan
      dsimp only
      by_cases hsel : selectable db ((s + i) % db.followers.length)
      · rw [if_pos hsel] at h ⊢
        have hj : (s + i) % db.followers.length = j := (List.cons.injEq .. ▸ h).1
        rw [hj]
      · rw [if_neg hsel] at h ⊢
        have hfun : (fun k => (s + i + (k + 1)) % db.followers.length) =
            (fun k => (s + (i + 1) + k) % db.followers.length) := by
          funext k
          congr 1
          omega
        rw [hfun] at h
        exact ih (i + 1) _ j rest h

/-- If the remaining probe sequence contains no selectable slot, the
scan returns none and leaves the cursor just past the last probed slot. -/
theorem followerScan_none (db : DBState) (s : Nat) :
    ∀ (fuel i cur : Nat),
      0 < fuel →
      ((List.range fuel).map
          (fun k => (s + i + k) % db.followers.length)).filter (selectable db) =
        [] →
      followerScan db s i fuel cur =
        ((s + i + fuel) % db.followers.length, none) := by
  intro fuel
  induction fuel with
  | zero => intro i cur h0; omega
  | succ m ih =>
      intro i cur _ h
      rw [range_map_offset_cons (fun k => (s + i + k) % db.followers.length) m,
        List.filter_cons] at h
      simp only [Nat.add_zero] at h
      by_cases hsel : selectable db ((s + i) % db.followers.length)
      · rw [if_pos hsel] at h
        simp at h
      · rw [if_neg hsel] at h
        unfold followerScan
        dsimp only
        rw [if_neg hsel]
        rcases Nat.eq_zero_or_pos m with hm | hm
        · subst hm
          unfold followerScan
          rw [Nat.mod_add_mod]
        · have hfun : (fun k => (s + i + (k + 1)) % db.followers.length) =
              (fun k => (s + (i + 1) + k) % db.followers.length) := by
            funext k
            congr 1
            omega
          rw [hfun] at h
          rw [ih (i + 1) _ hm h]
          have harg : s + (i + 1) + m = s + i + (m + 1) := by omega
          rw [harg]

/-- A single `Follower()` call with a selectable slot available: the
first selectable position `j` in probe order is returned and the cursor
moves to `(j+1) % n`. -/
theorem Follower_found (db : DBState) (hn : 0 < db.followers.length)
    (j : Nat) (rest : List Nat) (hS : selectableList db = j :: rest) :
    Follower db = ({ db with followerIdx := (j + 1) % db.followers.length },
      db.followers.getD j none) := by
  have hsel : selectable db j = true := by
    have hj : j ∈ selectableList db := by
      rw [hS]
      exact List.mem_cons_self j rest
    exact (List.mem_filter.mp hj).2
  obtain ⟨c, hc⟩ : ∃ c, db.followers.getD j none = some c := by
    rcases h : db.followers.getD j none with _ | c
    · exfalso
      unfold selectable at hsel
      rw [h] at hsel
      simp at hsel
    · exact ⟨c, rfl⟩
  have hscan := followerScan_found db db.followerIdx db.followers.length 0
    db.followerIdx j rest (by
      unfold selectableList window at hS
      simpa using hS)
  unfold Follower
  rw [if_neg (by omega), hscan, hc]

/-- A single `Follower()` call with no selectable slot: the leader
handle is returned and the cursor ends where it began (modulo `n`). -/
theorem Follower_none (db : DBState) (hn : 0 < db.followers.length)
    (hS : selectableList db = []) :
    Follower db = ({ db with followerIdx := db.followerIdx % db.followers.length },
      db.leader) := by
  have hscan := followerScan_none db db.followerIdx db.followers.length 0
    db.followerIdx hn (by
      unfold selectableList window at hS
      simpa using hS)
  unfold Follower
  rw [if_neg (by omega), hscan]
  have harg : (db.followerIdx + 0 + db.followers.length) % db.followers.length =
      db.followerIdx % db.followers.length := by
    rw [Nat.add_zero, Nat.add_mod_right]
  rw [harg]

/-- Rotation step: when the probe order from the current cursor selects
`j` first (with `rest` the later selectable slots), the probe order
starting just past `j` selects exactly `rest` followed by `j` — the
rotation continues instead of restarting. -/
theorem selectableList_rotate (db : DBState) (_hn : 0 < db.followers.length)
    (j : Nat) (rest : List Nat) (hS : selectableList db = j :: rest) :
    (window (j + 1) db.followers.length).filter (selectable db) = rest ++ [j] := by
  unfold selectableList window at hS
  obtain ⟨l₁, l₂, hsplit, hl₁, hpj, hl₂⟩ := List.filter_eq_cons_iff.mp hS
  obtain ⟨r₁, r₂, hr, hm₁, hm₂⟩ := List.map_eq_append_iff.mp hsplit
  rcases r₂ with _ | ⟨d₀, r₂'⟩
  · simp at hm₂
  rw [List.map_cons] at hm₂
  injection hm₂ with hj hl₂m
  -- name the shorthands
  set n := db.followers.length with hnn
  set s := db.followerIdx with hss
  set d := r₁.length with hdd
  -- lengths: d + 1 + r₂'.length = n
  have hlen : d + (r₂'.length + 1) = n := by
    have := congrArg List.length hr
    simpa [Nat.add_comm] using this.symm
  have hdle : d ≤ n := by omega
  -- r₁ = range d and d₀ :: r₂' = range' d (n - d)
  have hrsplit : List.range n = List.range d ++ List.range' d (n - d) := by
    have happ := List.range'_append 0 d (n - d) 1
    simp only [Nat.one_mul, Nat.zero_add] at happ
    calc List.range n = List.range' 0 n := List.range_eq_range' n
      _ = List.range' 0 (n - d + d) := by congr 1; omega
      _ = List.range' 0 d ++ List.range' d (n - d) := happ.symm
      _ = List.range d ++ List.range' d (n - d) := by
            rw [← List.range_eq_range']
  have hinj := List.append_inj (hr.symm.trans hrsplit)
    (by rw [List.length_range])
  have hr₁ : r₁ = List.range d := hinj.1
  have hr₂ : d₀ :: r₂' = List.range' d (n - d) := hinj.2
  obtain ⟨m, hm⟩ : ∃ m, n - d = m + 1 := by
    rcases h : n - d with _ | m
    · rw [h] at hr₂; simp at hr₂
    · exact ⟨m, rfl⟩
  rw [hm, show List.range' d (m + 1) = d :: List.range' (d + 1) m from rfl] at hr₂
  injection hr₂ with hd₀ hr₂'
  have hnm : n = d + 1 + m := by omega
  subst hd₀
  -- j = (s + d) % n
  have hjval : j = (s + d) % n := hj.symm
  -- split the new window at offset m
  have hsplit2 : List.range n = List.range m ++ List.range' m (d + 1) := by
    have happ := List.range'_append 0 m (d + 1) 1
    simp only [Nat.one_mul, Nat.zero_add] at happ
    calc List.range n = List.range' 0 n := List.range_eq_range' n
      _ = List.range' 0 (d + 1 + m) := by rw [← hnm]
      _ = List.range' 0 m ++ List.range' m (d + 1) := happ.symm
      _ = List.range m ++ List.range' m (d + 1) := by
            rw [← List.range_eq_range']
  have hwin : window (j + 1) n = l₂ ++ (l₁ ++ [j]) := by
    unfold window
    rw [hsplit2, List.map_append]
    congr 1
    · -- first part: the probes after j, in order
      rw [← hl₂m, hr₂', List.range'_eq_map_range, List.map_map]
      apply List.map_congr_left
      intro k _
      show (j + 1 + k) % n = (s + (d + 1 + k)) % n
      rw [hjval, Nat.add_assoc, Nat.mod_add_mod,
        show s + d + (1 + k) = s + (d + 1 + k) from by omega]
    · -- wrap-around part: the probes before j, then j itself
      rw [← hm₁, hr₁, List.range'_eq_map_range, List.map_map, List.range_succ,
        List.map_append]
      congr 1
      · apply List.map_congr_left
        intro t ht
        show (j + 1 + (m + t)) % n = (s + t) % n
        rw [hjval, Nat.add_assoc, Nat.mod_add_mod,
          show s + d + (1 + (m + t)) = s + t + n from by omega, Nat.add_mod_right]
      · simp only [List.map_cons, List.map_nil, Function.comp_apply]
        rw [hjval, Nat.add_assoc, Nat.mod_add_mod,
          show s + d + (1 + (m + d)) = s + d + n from by omega, Nat.add_mod_right]
  rw [hwin, List.filter_append, List.filter_append, hl₂,
    List.filter_eq_nil_iff.mpr hl₁, List.nil_append]
  simp [hpj]

/-- `k` successive `Follower()` calls (with a fixed health table) return
the first `k` selectable positions in probe order from the cursor. -/
theorem followerCalls_take (k : Nat) :
    ∀ db : DBState, 0 < db.followers.length →
      k ≤ (selectableList db).length →
      followerCalls db k =
        ((selectableList db).take k).map (fun j => db.followers.getD j none) := by
  induction k with
  | zero => intro db _ _; rfl
  | succ k ih =>
      intro db hn hk
      rcases hS : selectableList db with _ | ⟨j, rest⟩
      · rw [hS] at hk
        simp at hk
      · have hfol := Follower_found db hn j rest hS
        unfold followerCalls
        dsimp only
        rw [hfol]
        dsimp only
        have hS' : selectableList
            { db with followerIdx := (j + 1) % db.followers.length } =
            rest ++ [j] := by
          unfold selectableList
          dsimp only
          rw [window_mod]
          exact selectableList_rotate db hn j rest hS
        have hlen : k ≤ rest.length := by
          rw [hS] at hk
          simpa using hk
        have hrec := ih { db with followerIdx := (j + 1) % db.followers.length }
          (by simpa using hn) (by rw [hS']; simp; omega)
        rw [hS', List.take_append_of_le_length hlen] at hrec
        rw [hrec, List.take_succ_cons, List.map_cons]

/-- C4: `Follower()` behaves as specified: with zero followers it
returns the leader handle; otherwise, scanning from the shared cursor,
it returns the first position that is marked healthy in the health table
and holds a non-nil handle, advancing the cursor past it so the next
call continues the rotation; repeated calls (one full round of as many
calls as there are selectable positions) visit every healthy, live
follower exactly once, in probe order, skipping unhealthy ones; and when
nothing is selectable it returns the very handle `Leader()` returns —
never nil while the leader handle exists. -/
theorem follower_round_robin (db : DBState) :
    (db.followers.length = 0 → Follower db = (db, Leader db)) ∧
    (0 < db.followers.length → ∀ j rest, selectableList db = j :: rest →
      Follower db = ({ db with followerIdx := (j + 1) % db.followers.length },
        db.followers.getD j none) ∧ selectable db j = true) ∧
    (0 < db.followers.length → selectableList db = [] →
      Follower db =
        ({ db with followerIdx := db.followerIdx % db.followers.length },
          Leader db)) ∧
    ((Leader db).isSome → (Follower db).2.isSome) ∧
    (followerCalls db (selectableList db).length =
      (selectableList db).map (fun j => db.followers.getD j none) ∧
     (selectableList db).Nodup ∧
     (selectableList db).Perm
       ((List.range db.followers.length).filter (selectable db))) := by
  have hzero : db.followers.length = 0 → Follower db = (db, Leader db) := by
    intro h0
    unfold Follower Leader
    rw [if_pos h0]
  have hfound : 0 < db.followers.length → ∀ j rest,
      selectableList db = j :: rest →
      Follower db = ({ db with followerIdx := (j + 1) % db.followers.length },
        db.followers.getD j none) ∧ selectable db j = true := by
    intro hn j rest hS
    refine ⟨Follower_found db hn j rest hS, ?_⟩
    have hj : j ∈ selectableList db := by
      rw [hS]
      exact List.mem_cons_self j rest
    exact (List.mem_filter.mp hj).2
  have hnone : 0 < db.followers.length → selectableList db = [] →
      Follower db =
        ({ db with followerIdx := db.followerIdx % db.followers.length },
          Leader db) := by
    intro hn hS
    exact Follower_none db hn hS
  refine ⟨hzero, hfound, hnone, ?_, ?_, ?_, ?_⟩
  · -- never nil while the leader handle exists
    intro hleader
    rcases Nat.eq_zero_or_pos db.followers.length with h0 | hn
    · rw [hzero h0]
      exact hleader
    · rcases hS : selectableList db with _ | ⟨j, rest⟩
      · rw [hnone hn hS]
        exact hleader
      · rw [(hfound hn j rest hS).1]
        have hsel := (hfound hn j rest hS).2
        unfold selectable at hsel
        exact (Bool.and_eq_true _ _ |>.mp hsel).2
  · -- one full round returns every selectable position once, in order
    rcases Nat.eq_zero_or_pos db.followers.length with h0 | hn
    · have hS : selectableList db = [] := by
        unfold selectableList window
        rw [h0]
        rfl
      rw [hS]
      rfl
    · exact (followerCalls_take (selectableList db).length db hn le_rfl).trans
        (by rw [List.take_length])
  · exact (window_nodup db.followerIdx db.followers.length).filter _
  · exact (window_perm db.followerIdx db.followers.length).filter _

/-- Sample manager state for the C4 witness: two followers, slot 0
unhealthy, slot 1 healthy (the spec's §8 scenario). -/
def sampleRouterDb : DBState :=
  { leader := some 100
    followers := [some 11, some 12]
    followerIdx := 0
    followerHealthMap := fun i =>
      if i = 0 then some ⟨false, 0, "ping failed", 0⟩
      else if i = 1 then some ⟨true, 0, "", 0⟩
      else none
    leaderHealth := ⟨true, 0, "", 0⟩ }

/-- Witness for C4: with follower #0 unhealthy and #1 healthy, the call
returns follower #1's handle (not the leader), three consecutive calls
return it three times, and with every follower unhealthy the call
returns the leader handle. -/
theorem follower_round_robin_witness :
    (Follower sampleRouterDb).2 = some 12 ∧
    followerCalls sampleRouterDb 3 = [some 12, some 12, some 12] ∧
    (Follower { sampleRouterDb with followerHealthMap := fun _ => none }).2 =
      Leader sampleRouterDb := by
  refine ⟨?_, by decide, ?_⟩
  · have h := ((follower_round_robin sampleRouterDb).2.1 (by decide) 1 []
      (by decide)).1
    rw [h]
    rfl
  · have h := (follower_round_robin
      { sampleRouterDb with followerHealthMap := fun _ => none }).2.2.1
      (by decide) (by decide)
    rw [h]
    rfl

end Sqlkit
